import Mathlib

/-!
Verification of the ClimateIntelligence data-acquisition layer.

This file shallowly embeds the data-fetch functions of `src/utils.py`,
`src/api_integrations.py` and `src/climate_data.py` as pure Lean
functions over explicit environments describing provider outcomes
(network errors, HTTP status codes, raw payload text), and proves or
refutes the spec's claims about the fallback cascade, normalization,
caching and geographic classification.

Conventions:
* Python floats are modelled as rationals (the claims are about
  control flow, ordering and interval membership, not rounding).
* A Python call that may raise is modelled as `Except PyErr _`;
  an `except` clause is a `match` on such a value.
* HTTP call outcomes are supplied by environment records: a field is
  either a raised exception (`.error`) or a response (`.ok`) carrying
  a status code and a payload.
-/

/-- Strip leading and trailing whitespace from a character list
(model of Python's `str.strip()`). -/
def charsTrim (cs : List Char) : List Char :=
  ((cs.dropWhile Char.isWhitespace).reverse.dropWhile Char.isWhitespace).reverse

/-- Close the token being accumulated by a split fold, dropping it when
it is empty. -/
def pushTok (acc : List (List Char) × List Char) : List (List Char) :=
  if acc.2 = [] then acc.1 else acc.1 ++ [acc.2.reverse]

/-- Model of Python's whitespace `str.split()` (no argument): splits on
runs of whitespace and drops empty pieces. -/
def pySplitWs (s : String) : List (List Char) :=
  pushTok (s.data.foldl
    (fun (acc : List (List Char) × List Char) c =>
      if c.isWhitespace then (pushTok acc, []) else (acc.1, c :: acc.2))
    ([], []))

/-- Model of Python's `str.split(sep)` for a one-character separator:
keeps empty pieces. -/
def pySplitOn (sep : Char) (s : String) : List (List Char) :=
  let step := s.data.foldl
    (fun (acc : List (List Char) × List Char) c =>
      if c = sep then (acc.1 ++ [acc.2.reverse], []) else (acc.1, c :: acc.2))
    ([], [])
  step.1 ++ [step.2.reverse]

/-- Model of Python's substring test `pat in s` over character lists. -/
def containsChars (pat : List Char) : List Char → Bool
  | [] => pat.isPrefixOf []
  | c :: rest => pat.isPrefixOf (c :: rest) || containsChars pat rest

/-- Digits-to-number accumulator used by the numeric coercion models. -/
def digitsVal (cs : List Char) : ℕ :=
  cs.foldl (fun a c => a * 10 + (c.toNat - 48)) 0

/-- Model of Python's `int(s)` on decimal strings: optional surrounding
whitespace, optional sign, then one or more digits; anything else (for
example a decimal point) raises `ValueError`, modelled as `none`. -/
def pyInt (s : List Char) : Option ℤ :=
  let (sign, ds) : ℤ × List Char :=
    match charsTrim s with
    | '-' :: r => (-1, r)
    | '+' :: r => (1, r)
    | r => (1, r)
  if ds ≠ [] ∧ ds.all Char.isDigit then
    some (sign * (digitsVal ds : ℤ))
  else
    none

/-- Model of Python's `float(s)` on plain decimal strings: optional
surrounding whitespace, optional sign, digits with at most one decimal
point and at least one digit overall; failure is `ValueError`, modelled
as `none`. -/
def pyFloat (s : List Char) : Option ℚ :=
  let (sign, ds) : ℚ × List Char :=
    match charsTrim s with
    | '-' :: r => (-1, r)
    | '+' :: r => (1, r)
    | r => (1, r)
  let intPart := ds.takeWhile Char.isDigit
  let rest := ds.dropWhile Char.isDigit
  match rest with
  | [] =>
      if intPart ≠ [] then some (sign * (digitsVal intPart : ℚ)) else none
  | '.' :: frac =>
      if frac.all Char.isDigit ∧ (intPart ≠ [] ∨ frac ≠ []) then
        some (sign * ((digitsVal intPart : ℚ) +
          (digitsVal frac : ℚ) / (10 : ℚ) ^ frac.length))
      else none
  | _ => none

/-- Model of Python's `int(x)` on a float: truncation toward zero. -/
def pyTrunc (q : ℚ) : ℤ :=
  Int.tdiv q.num (q.den : ℤ)

/-!
## GeoClassifier: `NOAAAPI.is_us_location` (src/api_integrations.py 114-118)
-/

/-- Embedding of `NOAAAPI.is_us_location`: the disjunction of three
closed-interval bounding-box tests exactly as written in the source. -/
def is_us_location (lat lon : ℚ) : Bool :=
  (decide (25.0 ≤ lat) && decide (lat ≤ 49.5) &&
    decide (-124.5 ≤ lon) && decide (lon ≤ -66.95)) ||
  (decide (49.5 ≤ lat) && decide (-124.5 ≤ lon) && decide (lon ≤ -67.4)) ||
  (decide (54.5 ≤ lat) && decide (lat ≤ 71.5) &&
    decide (-168.0 ≤ lon) && decide (lon ≤ -140.0))

/-- The continental bounding box, closed intervals. -/
def inContinentalBox (lat lon : ℚ) : Prop :=
  25.0 ≤ lat ∧ lat ≤ 49.5 ∧ -124.5 ≤ lon ∧ lon ≤ -66.95

/-- The northern-extension bounding box (no upper latitude bound in the
source), closed intervals. -/
def inNorthernBox (lat lon : ℚ) : Prop :=
  49.5 ≤ lat ∧ -124.5 ≤ lon ∧ lon ≤ -67.4

/-- The Alaska exclave bounding box, closed intervals. -/
def inAlaskaBox (lat lon : ℚ) : Prop :=
  54.5 ≤ lat ∧ lat ≤ 71.5 ∧ -168.0 ≤ lon ∧ lon ≤ -140.0

/-- C4: `is_us_location` returns true exactly on the union of the three
fixed bounding boxes with inclusive boundaries (so every point of a box,
including edge points, is classified domestic, and only such points
are); the point lat=0, lon=0 is classified non-domestic; and two sample
boundary-edge points are classified domestic. -/
theorem C4_is_us_location_boxes :
    (∀ lat lon : ℚ, is_us_location lat lon = true ↔
      inContinentalBox lat lon ∨ inNorthernBox lat lon ∨ inAlaskaBox lat lon) ∧
    is_us_location 0 0 = false ∧
    is_us_location 25 (-124.5) = true ∧
    is_us_location 49.5 (-66.95) = true := by
  refine ⟨fun lat lon => ?_, ?_, ?_, ?_⟩
  · simp [is_us_location, inContinentalBox, inNorthernBox, inAlaskaBox,
      Bool.or_eq_true, Bool.and_eq_true, decide_eq_true_eq, and_assoc, or_assoc]
  · simp [is_us_location]
    norm_num
  · simp [is_us_location]
    norm_num
  · simp [is_us_location]
    norm_num

/-!
## `calculate_vulnerability_score` (src/climate_data.py 392-432)
-/

/-- A Python value looked up from a dict: either a number (int/float,
on which comparisons succeed) or some non-numeric value (on which an
order comparison raises `TypeError`). -/
inductive PVal where
  | num (q : ℚ)
  | other
deriving DecidableEq

/-- The `weather_data['main']` sub-dict: optional `temp` and
`humidity` entries. -/
structure MainBlock where
  temp : Option PVal
  humidity : Option PVal
deriving DecidableEq

/-- The value stored under the `main` key: a dict (so `.get` works) or
a non-dict value (so `.get` raises `AttributeError`). -/
inductive MainVal where
  | dict (m : MainBlock)
  | nonDict
deriving DecidableEq

/-- The `weather_data` argument: a dict with an optional `main` key, or
not a dict at all. -/
inductive WeatherData where
  | dict (main : Option MainVal)
  | nonDict
deriving DecidableEq

/-- The `location_data` argument: a dict with truthiness of
`is_coastal` / `is_urban` and an optional `extreme_events` value, or
not a dict at all. -/
inductive LocationData where
  | dict (is_coastal is_urban : Bool) (extreme_events : Option PVal)
  | nonDict
deriving DecidableEq

/-- A Python comparison `bound < v`; raises `TypeError` (modelled as
`Except.error ()`) when `v` is not numeric. -/
def pvGT (v : PVal) (bound : ℚ) : Except Unit Bool :=
  match v with
  | .num q => .ok (decide (bound < q))
  | .other => .error ()

/-- A Python comparison `v < bound`; raises `TypeError` when `v` is
not numeric. -/
def pvLT (v : PVal) (bound : ℚ) : Except Unit Bool :=
  match v with
  | .num q => .ok (decide (q < bound))
  | .other => .error ()

/-- The raw score computation inside the `try` block of
`calculate_vulnerability_score`, before the final clamp: starts at 5.0,
adds the temperature/humidity/location increments in source order, and
propagates any `AttributeError`/`TypeError` as `Except.error`. -/
def vulnRaw (wd : WeatherData) (ld : LocationData) : Except Unit ℚ := do
  let score : ℚ := 5
  let score ←
    match wd with
    | .nonDict => pure score
    | .dict none => pure score
    | .dict (some .nonDict) => Except.error ()
    | .dict (some (.dict m)) => do
        let temp := m.temp.getD (.num 0)
        let gt35 ← pvGT temp 35
        let score ←
          if gt35 then pure (score + 2)
          else do
            let lt0 ← pvLT temp 0
            pure (if lt0 then score + 1 else score)
        let humidity := m.humidity.getD (.num 0)
        let gt80 ← pvGT humidity 80
        if gt80 then pure (score + 1)
        else do
          let lt30 ← pvLT humidity 30
          pure (if lt30 then score + 1 else score)
  match ld with
  | .nonDict => pure score
  | .dict coastal urban ee => do
      let score := if coastal then score + 1 else score
      let score := if urban then score + 1/2 else score
      let extreme_events := ee.getD (.num 0)
      let gt5 ← pvGT extreme_events 5
      pure (if gt5 then score + 1 else score)

/-- Embedding of `calculate_vulnerability_score`: the raw score is
clamped by `min(max(score / 10.0, 0), 1.0)`; any exception from the
`try` block is caught and yields 0.5. -/
def calculate_vulnerability_score (wd : WeatherData) (ld : LocationData) : ℚ :=
  match vulnRaw wd ld with
  | .ok score => min (max (score / 10) 0) 1
  | .error _ => 1/2

/-- C10: for every pair of inputs, including non-dict and malformed
values, `calculate_vulnerability_score` returns a number in the closed
interval [0, 1]; the internal-failure result 0.5 also lies in that
interval. -/
theorem C10_vulnerability_score_bounds :
    ∀ (wd : WeatherData) (ld : LocationData),
      0 ≤ calculate_vulnerability_score wd ld ∧
        calculate_vulnerability_score wd ld ≤ 1 := by
  intro wd ld
  unfold calculate_vulnerability_score
  match vulnRaw wd ld with
  | .ok score =>
      exact ⟨le_min (le_max_right _ _) zero_le_one, min_le_right _ _⟩
  | .error _ =>
      norm_num

/-!
## Temperature cascade: `get_global_temperature_data` (src/utils.py 183-251)
-/

/-- The NASA GISS CSV as seen after `pd.read_csv`: whether both the
`Year` and `J-D` columns are present, and the rows as (Year, J-D after
numeric coercion; `none` models a non-numeric annual mean coerced to
NaN). -/
structure NasaCsv where
  hasYearJD : Bool
  rows : List (ℤ × Option ℚ)
deriving DecidableEq

/-- The NASA branch's row processing (src/utils.py 199-209): numeric
coercion with `errors='coerce'`, division by 100, `dropna` removing the
whole row (year and value) when the anomaly is missing. -/
def processNasa (rows : List (ℤ × Option ℚ)) : List (ℤ × ℚ) :=
  rows.filterMap (fun r => r.2.map (fun v => (r.1, v / 100)))

/-- One Berkeley Earth summary-file data line (src/utils.py 234-238):
split on whitespace; with at least two fields, `int(float(parts[0]))`
and `float(parts[1])` are computed with no surrounding try/except, so a
coercion failure raises `ValueError` out of the loop. -/
def berkeleyLine (l : String) : Option (Except Unit (ℤ × ℚ)) :=
  let parts := pySplitWs l
  if 2 ≤ parts.length then
    match pyFloat (parts.getD 0 []), pyFloat (parts.getD 1 []) with
    | some y, some t => some (.ok (pyTrunc y, t))
    | _, _ => some (.error ())
  else
    none

/-- The Berkeley Earth header scan and data-line collection
(src/utils.py 222-229): lines before the `% Year` marker are skipped,
then nonempty lines not starting with `%` are data lines. -/
def berkeleyDataLines (lines : List String) : List String :=
  (lines.foldl
    (fun (acc : List String × Bool) line =>
      if List.isPrefixOf "% Year".data line.data then (acc.1, true)
      else if acc.2 ∧ line.data ≠ [] ∧ ¬ List.isPrefixOf "%".data line.data then
        (acc.1 ++ [line], acc.2)
      else acc)
    ([], false)).1

/-- The whole Berkeley Earth parse: collects parsed (year, anomaly)
pairs in file order; an unparsable numeric field raises `ValueError`,
modelled as `Except.error`. -/
def parseBerkeley (lines : List String) : Except Unit (List (ℤ × ℚ)) :=
  (berkeleyDataLines lines).foldl
    (fun acc l =>
      match acc with
      | .error e => .error e
      | .ok pts =>
          match berkeleyLine l with
          | none => .ok pts
          | some (.ok p) => .ok (pts ++ [p])
          | some (.error e) => .error e)
    (.ok [])

/-- Environment for one `get_global_temperature_data` call: the outcome
of `pd.read_csv` on the NASA URL (a raised error or a parsed CSV), and
the outcome of `requests.get` on the Berkeley URL (a raised error or a
status code with response text lines). -/
structure TempEnv where
  nasa : Except String NasaCsv
  berkeley : Except String (ℕ × List String)

/-- Result of `get_global_temperature_data`: the returned DataFrame as
(Year, Temperature_Anomaly) rows, whether the outer `except` handler
ran (empty-DataFrame error return), and whether the Berkeley Earth
backup source was contacted. -/
structure TempOut where
  df : List (ℤ × ℚ)
  errored : Bool
  calledBerkeley : Bool
deriving DecidableEq

/-- Embedding of `get_global_temperature_data` (src/utils.py 183-251):
NASA CSV is fetched first; a raised read error goes to the outer
`except` (empty DataFrame) without contacting Berkeley; missing
Year/J-D columns fall back to Berkeley Earth; a Berkeley non-200
status or parse error also ends in the outer `except`. -/
def get_global_temperature_data (env : TempEnv) : TempOut :=
  match env.nasa with
  | .error _ => ⟨[], true, false⟩
  | .ok csv =>
      if csv.hasYearJD then ⟨processNasa csv.rows, false, false⟩
      else
        match env.berkeley with
        | .error _ => ⟨[], true, true⟩
        | .ok (status, lines) =>
            if status = 200 then
              match parseBerkeley lines with
              | .ok pts => ⟨pts, false, true⟩
              | .error _ => ⟨[], true, true⟩
            else ⟨[], true, true⟩

/-!
## CO2 cascade: `get_co2_data` (src/utils.py 253-344)
-/

/-- One NOAA GML annual-mean line (src/utils.py 268-280): skip comment
and blank lines; split on whitespace; with at least two fields try
`int(parts[0])` and `float(parts[1])`, skipping the line on
`ValueError`. -/
def gmlLine (l : String) : Option (ℤ × ℚ) :=
  if ¬ List.isPrefixOf "#".data l.data ∧ (charsTrim l.data).length > 0 then
    let parts := pySplitWs l
    if 2 ≤ parts.length then
      match pyInt (parts.getD 0 []), pyFloat (parts.getD 1 []) with
      | some y, some c => some (y, c)
      | _, _ => none
    else none
  else none

/-- The NOAA GML parse: appends each parsed (year, co2) pair in file
order, with no deduplication and no sort. -/
def parseGmlLines (lines : List String) : List (ℤ × ℚ) :=
  lines.foldl
    (fun acc l =>
      match gmlLine l with
      | some p => acc ++ [p]
      | none => acc)
    []

/-- Index of the first Scripps data line (src/utils.py 297-302): one
past the first line containing `yr,mn,date` (case-insensitive), or 0
when no such header line exists. -/
def scrippsDataStart (lines : List String) : ℕ :=
  match lines.findIdx? (fun l => containsChars "yr,mn,date".data (l.data.map Char.toLower)) with
  | some i => i + 1
  | none => 0

/-- One Scripps monthly CSV line (src/utils.py 309-322): split on
commas; with at least three fields compute `int(float(parts[0]))`,
then take column 4 as the CO2 value when present and nonblank;
`ValueError` in either coercion skips the line. -/
def scrippsLine (l : String) : Option (ℤ × ℚ) :=
  let parts := pySplitOn ',' l
  if 3 ≤ parts.length then
    match pyFloat (parts.getD 0 []) with
    | none => none
    | some y0 =>
        if 3 < parts.length ∧ charsTrim (parts.getD 3 []) ≠ [] then
          match pyFloat (parts.getD 3 []) with
          | some c => some (pyTrunc y0, c)
          | none => none
        else none
  else none

/-- Model of the `year_averages` dict insertion (src/utils.py 317-320):
an association list ordered by first insertion, appending the new value
to the year's list. -/
def addToYear (m : List (ℤ × List ℚ)) (y : ℤ) (v : ℚ) : List (ℤ × List ℚ) :=
  match m with
  | [] => [(y, [v])]
  | (y', vs) :: rest =>
      if y' = y then (y', vs ++ [v]) :: rest
      else (y', vs) :: addToYear rest y v

/-- The grouped Scripps monthly values per year, in first-insertion
order. -/
def scrippsGroups (lines : List String) : List (ℤ × List ℚ) :=
  (lines.drop (scrippsDataStart lines)).foldl
    (fun m l =>
      match scrippsLine l with
      | some (y, c) => addToYear m y c
      | none => m)
    []

/-- Sum of a list of rationals (Python's `sum`). -/
def listSum (vs : List ℚ) : ℚ :=
  vs.foldl (fun a b => a + b) 0

/-- Row order relation used by `df.sort_values('Year')`: compare by the
year component only. -/
def rowLe (p q : ℤ × ℚ) : Prop :=
  p.1 ≤ q.1

instance : DecidableRel rowLe := fun p q => inferInstanceAs (Decidable (p.1 ≤ q.1))

instance : IsTotal (ℤ × ℚ) rowLe := ⟨fun p q => Int.le_total p.1 q.1⟩

instance : IsTrans (ℤ × ℚ) rowLe := ⟨fun _ _ _ h h' => le_trans h h'⟩

/-- The annual-average rows before sorting (src/utils.py 324-328): one
row per nonempty year group carrying the arithmetic mean of that
year's monthly values, in first-insertion order. -/
def scrippsAveraged (lines : List String) : List (ℤ × ℚ) :=
  (scrippsGroups lines).filterMap
    (fun g => if g.2 ≠ [] then some (g.1, listSum g.2 / g.2.length) else none)

/-- The Scripps fallback's annual series (src/utils.py 324-336): the
averaged rows after `df.sort_values('Year')`. -/
def scrippsAnnual (lines : List String) : List (ℤ × ℚ) :=
  List.insertionSort rowLe (scrippsAveraged lines)

/-- Environment for one `get_co2_data` call: outcomes of the
`requests.get` calls on the NOAA GML URL and the Scripps URL. -/
structure Co2Env where
  gml : Except String (ℕ × List String)
  scripps : Except String (ℕ × List String)

/-- Result of `get_co2_data`: the (Year, CO2_Concentration) rows,
whether the outer `except` handler ran, and whether the Scripps
fallback source was contacted. -/
structure Co2Out where
  df : List (ℤ × ℚ)
  errored : Bool
  calledScripps : Bool
deriving DecidableEq

/-- Embedding of `get_co2_data` (src/utils.py 253-344): the NOAA GML
file is fetched first; a raised network error goes to the outer
`except` (empty DataFrame) without contacting Scripps; a non-200
status falls back to Scripps; a Scripps raised error or non-200 status
ends in the outer `except`. -/
def get_co2_data (env : Co2Env) : Co2Out :=
  match env.gml with
  | .error _ => ⟨[], true, false⟩
  | .ok (status, lines) =>
      if status = 200 then ⟨parseGmlLines lines, false, false⟩
      else
        match env.scripps with
        | .error _ => ⟨[], true, true⟩
        | .ok (status2, lines2) =>
            if status2 = 200 then ⟨scrippsAnnual lines2, false, true⟩
            else ⟨[], true, true⟩

/-!
## Air-quality World Bank normalization: `get_air_quality_data`
   (src/utils.py 596-625)
-/

/-- One World-Bank-style record: the `date` and `value` fields, each
possibly null (`none`); a present value is its string form, coerced
with `float`. -/
structure WBEntry where
  date : Option String
  value : Option String
deriving DecidableEq

/-- The per-record World Bank filter and coercion (src/utils.py
601-610): the record is used only when `value` is not null and `date`
is truthy; then `int(date)` and `float(value)` are attempted, and a
`ValueError` in either skips the whole record. -/
def wbCoerce (e : WBEntry) : Option (ℤ × ℚ) :=
  match e.value, e.date with
  | some v, some d =>
      if d.data ≠ [] then
        match pyInt d.data, pyFloat v.data with
        | some y, some p => some (y, p)
        | _, _ => none
      else none
  | _, _ => none

/-- The `years`/`pm25_values` accumulation loop: appends each usable
record's pair in payload order. -/
def wbRaw (entries : List WBEntry) : List (ℤ × ℚ) :=
  entries.foldl
    (fun acc e =>
      match wbCoerce e with
      | some p => acc ++ [p]
      | none => acc)
    []

/-- Pair ordering used by Python's `sorted(zip(years, values))`:
lexicographic on (year, value). -/
def pairLex (p q : ℤ × ℚ) : Prop :=
  p.1 < q.1 ∨ (p.1 = q.1 ∧ p.2 ≤ q.2)

instance : DecidableRel pairLex :=
  fun p q => inferInstanceAs (Decidable (p.1 < q.1 ∨ (p.1 = q.1 ∧ p.2 ≤ q.2)))

instance : IsTotal (ℤ × ℚ) pairLex := by
  constructor
  intro p q
  rcases lt_trichotomy p.1 q.1 with h | h | h
  · exact Or.inl (Or.inl h)
  · rcases le_total p.2 q.2 with h2 | h2
    · exact Or.inl (Or.inr ⟨h, h2⟩)
    · exact Or.inr (Or.inr ⟨h.symm, h2⟩)
  · exact Or.inr (Or.inl h)

instance : IsTrans (ℤ × ℚ) pairLex := by
  constructor
  intro p q r hpq hqr
  rcases hpq with h1 | ⟨e1, l1⟩
  · rcases hqr with h2 | ⟨e2, _⟩
    · exact Or.inl (h1.trans h2)
    · exact Or.inl (e2 ▸ h1)
  · rcases hqr with h2 | ⟨e2, l2⟩
    · exact Or.inl (e1 ▸ h2)
    · exact Or.inr ⟨e1.trans e2, l1.trans l2⟩

/-- The World Bank branch's normalized output (src/utils.py 612-622):
the accumulated pairs sorted by Python's `sorted(zip(...))`. -/
def aqWBpoints (entries : List WBEntry) : List (ℤ × ℚ) :=
  List.insertionSort pairLex (wbRaw entries)

/-!
## Claim C1: fallback cascade triggering
-/

/-- C1 counterexample: with the NASA GISS read raising a network error
(and Berkeley Earth available and healthy), `get_global_temperature_data`
does not proceed to the Berkeley Earth provider: it returns the outer
error handler's empty DataFrame with the backup never contacted,
contradicting the claim that a raised network/parse error advances the
cascade. -/
theorem C1_counterexample :
    (get_global_temperature_data
      ⟨.error "connection timeout", .ok (200, [])⟩).calledBerkeley = false ∧
    (get_global_temperature_data
      ⟨.error "connection timeout", .ok (200, [])⟩).errored = true :=
  ⟨rfl, rfl⟩

/-- C1 amended: the secondary provider is contacted exactly when the
primary call itself succeeds but yields an unusable response — for
temperature, a NASA CSV read that returns without the Year/J-D columns;
for CO2, a NOAA GML response with a non-200 status. In particular the
secondary is never invoked when the primary succeeds usably, and a
primary call that raises a network/parse error aborts to the outer
error handler without trying the secondary. -/
theorem C1_amended_fallback_trigger :
    ∀ (et : TempEnv) (ec : Co2Env),
      ((get_global_temperature_data et).calledBerkeley = true ↔
        ∃ csv, et.nasa = .ok csv ∧ csv.hasYearJD = false) ∧
      ((get_co2_data ec).calledScripps = true ↔
        ∃ status lines, ec.gml = .ok (status, lines) ∧ status ≠ 200) := by
  intro et ec
  constructor
  · cases het : et.nasa with
    | error e =>
        simp [get_global_temperature_data, het]
    | ok csv =>
        by_cases hj : csv.hasYearJD
        · simp only [get_global_temperature_data, het, hj, if_pos]
          simp [hj]
        · cases hb : et.berkeley with
          | error e =>
              simp only [get_global_temperature_data, het, hj, if_neg, hb]
              simp only [Bool.not_eq_true] at hj
              simp [hj]
          | ok sl =>
              simp only [get_global_temperature_data, het, hj, if_neg, hb]
              simp only [Bool.not_eq_true] at hj
              rcases sl with ⟨status, lines⟩
              by_cases hs : status = 200
              · simp only [hs, if_pos]
                cases hp : parseBerkeley lines <;> simp [hj]
              · simp [hs, hj]
  · cases hgc : ec.gml with
    | error e =>
        simp [get_co2_data, hgc]
    | ok sl =>
        rcases sl with ⟨status, lines⟩
        by_cases hs : status = 200
        · simp [get_co2_data, hgc, hs]
        · cases hsc : ec.scripps with
          | error e =>
              simp [get_co2_data, hgc, hs, hsc]
          | ok sl2 =>
              rcases sl2 with ⟨status2, lines2⟩
              by_cases hs2 : status2 = 200 <;>
                simp [get_co2_data, hgc, hs, hsc, hs2]

/-!
## Claims C5/C6: deduplication and ordering of normalized output
-/

/-- Inserting into the year-averages dict either extends an existing
year's list (keys unchanged) or appends a fresh key at the end. -/
theorem addToYear_keys (m : List (ℤ × List ℚ)) (y : ℤ) (v : ℚ) :
    (addToYear m y v).map Prod.fst =
      if y ∈ m.map Prod.fst then m.map Prod.fst else m.map Prod.fst ++ [y] := by
  induction m with
  | nil => simp [addToYear]
  | cons hd tl ih =>
      rcases hd with ⟨y', vs⟩
      by_cases h : y' = y
      · subst h
        simp [addToYear]
      · simp only [addToYear, if_neg h, List.map_cons, ih]
        have h' : ¬ y = y' := fun hc => h hc.symm
        by_cases hm : y ∈ tl.map Prod.fst <;>
          simp [List.mem_cons, h', hm]

/-- Dict insertion preserves distinctness of the year keys. -/
theorem addToYear_keys_nodup (m : List (ℤ × List ℚ)) (y : ℤ) (v : ℚ)
    (h : (m.map Prod.fst).Nodup) : ((addToYear m y v).map Prod.fst).Nodup := by
  rw [addToYear_keys]
  by_cases hm : y ∈ m.map Prod.fst
  · simpa [hm]
  · simpa [hm, List.nodup_append] using h

/-- The year keys of the accumulated Scripps groups are distinct,
whatever the payload lines. -/
theorem scrippsGroups_keys_nodup (lines : List String) :
    ((scrippsGroups lines).map Prod.fst).Nodup := by
  have main : ∀ (L : List String) (m : List (ℤ × List ℚ)),
      (m.map Prod.fst).Nodup →
      ((L.foldl
        (fun m l =>
          match scrippsLine l with
          | some (y, c) => addToYear m y c
          | none => m)
        m).map Prod.fst).Nodup := by
    intro L
    induction L with
    | nil => intro m h; simpa using h
    | cons hd tl ih =>
        intro m h
        simp only [List.foldl_cons]
        cases hsl : scrippsLine hd with
        | none => exact ih m h
        | some p =>
            rcases p with ⟨y, c⟩
            exact ih _ (addToYear_keys_nodup m y c h)
  exact main _ [] (by simp)

/-- The annual-averaging step keeps a subcollection of the group keys:
its key list is a sublist of the groups' key list. -/
theorem averaged_keys_sublist (lines : List String) :
    ((scrippsAveraged lines).map Prod.fst).Sublist
      ((scrippsGroups lines).map Prod.fst) := by
  unfold scrippsAveraged
  generalize scrippsGroups lines = gs
  induction gs with
  | nil => simp
  | cons hd tl ih =>
      by_cases h : hd.2 ≠ []
      · simpa [List.filterMap_cons, h] using ih.cons₂ hd.1
      · simpa [List.filterMap_cons, h] using ih.cons hd.1

/-- The year column of the Scripps annual series has no duplicates. -/
theorem scrippsAnnual_years_nodup (lines : List String) :
    ((scrippsAnnual lines).map Prod.fst).Nodup := by
  have hperm := List.perm_insertionSort rowLe (scrippsAveraged lines)
  have hnd : ((scrippsAveraged lines).map Prod.fst).Nodup :=
    (averaged_keys_sublist lines).nodup (scrippsGroups_keys_nodup lines)
  exact ((hperm.map Prod.fst).nodup_iff).mpr hnd

set_option maxRecDepth 4000 in
/-- C5 counterexample: a NOAA GML payload that repeats year 2000 with
two different values produces two points for that period in the fetch's
normalized output — the repeated period is not collapsed to a single
last-wins point. -/
theorem C5_counterexample :
    (get_co2_data
      ⟨.ok (200, ["2000  369.4", "2000  370.0"]), .ok (200, [])⟩).df =
      [(2000, 1847/5), (2000, 370)] ∧
    ¬ ((get_co2_data
      ⟨.ok (200, ["2000  369.4", "2000  370.0"]), .ok (200, [])⟩).df.map
        Prod.fst).Nodup := by
  constructor
  · with_unfolding_all decide
  · with_unfolding_all decide

set_option maxRecDepth 4000 in
/-- C5 amended: the primary NOAA GML CO2 parse performs no
deduplication — a repeated year keeps every occurrence, in payload
order (so the original last-wins claim fails there) — while the
Scripps fallback path groups by year, so its output has no duplicate
periods, and a repeated year's surviving point carries the arithmetic
mean of that year's values, not the later-encountered value. -/
theorem C5_amended_dedup :
    (∀ lines, ((scrippsAnnual lines).map Prod.fst).Nodup) ∧
    scrippsAnnual ["yr,mn,date", "2000,1,x,300", "2000,2,x,302"] = [(2000, 301)] ∧
    parseGmlLines ["2000  369.4", "2000  370.0"] = [(2000, 1847/5), (2000, 370)] := by
  refine ⟨scrippsAnnual_years_nodup, ?_, ?_⟩
  · with_unfolding_all decide
  · with_unfolding_all decide

set_option maxRecDepth 4000 in
/-- C6 counterexample: a NOAA GML CO2 payload whose records arrive in
descending year order is parsed successfully, but the normalized output
preserves the payload order and is not chronologically ascending. -/
theorem C6_counterexample :
    (get_co2_data
      ⟨.ok (200, ["2001 371.0", "2000 369.4"]), .ok (200, [])⟩).df =
      [(2001, 371), (2000, 1847/5)] ∧
    ¬ ((get_co2_data
      ⟨.ok (200, ["2001 371.0", "2000 369.4"]), .ok (200, [])⟩).df.map
        Prod.fst).Pairwise (fun a b => a ≤ b) := by
  constructor
  · with_unfolding_all decide
  · with_unfolding_all decide

/-- C6 amended: the Scripps CO2 fallback path and the World Bank
air-quality path do sort their normalized output chronologically
ascending by year, for every payload; but the primary NOAA GML CO2
parse (and likewise the NASA temperature parse) emits records in
payload order without sorting, so the original universal claim fails
there. -/
theorem C6_amended_sorting :
    (∀ lines, ((scrippsAnnual lines).map Prod.fst).Pairwise (fun a b => a ≤ b)) ∧
    (∀ entries, ((aqWBpoints entries).map Prod.fst).Pairwise (fun a b => a ≤ b)) := by
  constructor
  · intro lines
    have hs := List.sorted_insertionSort rowLe (scrippsAveraged lines)
    rw [List.pairwise_map]
    exact hs
  · intro entries
    have hs := List.sorted_insertionSort pairLex (wbRaw entries)
    rw [List.pairwise_map]
    refine hs.imp ?_
    intro a b hab
    rcases hab with h | ⟨h, _⟩
    · exact le_of_lt h
    · exact le_of_eq h

/-- The accumulation loop is exactly a filtering map: each payload
record contributes its coerced pair, or nothing at all. -/
theorem wbRaw_eq_filterMap (entries : List WBEntry) :
    wbRaw entries = entries.filterMap wbCoerce := by
  have main : ∀ (es : List WBEntry) (acc : List (ℤ × ℚ)),
      es.foldl
        (fun acc e =>
          match wbCoerce e with
          | some p => acc ++ [p]
          | none => acc)
        acc = acc ++ es.filterMap wbCoerce := by
    intro es
    induction es with
    | nil => intro acc; simp
    | cons hd tl ih =>
        intro acc
        cases h : wbCoerce hd with
        | none => simp [List.filterMap_cons, h, ih]
        | some p => simp [List.filterMap_cons, h, ih]
  simpa using main entries []

set_option maxRecDepth 4000 in
/-- C7: a record whose value fails numeric coercion is dropped entirely
from the normalized series — the World Bank accumulation is a filtering
map, a null-valued record contributes nothing (its period is dropped
with it, never zero-filled), the documented two-record payload yields
exactly the one point (2020, 410.5), and the NASA temperature `dropna`
removes the whole row when the annual mean fails coercion. -/
theorem C7_failed_coercion_dropped :
    (∀ entries, wbRaw entries = entries.filterMap wbCoerce) ∧
    (∀ d, wbCoerce ⟨d, none⟩ = none) ∧
    aqWBpoints [⟨some "2020", some "410.5"⟩, ⟨some "2019", none⟩] =
      [(2020, 821/2)] ∧
    (∀ (y : ℤ) (rest : List (ℤ × Option ℚ)),
      processNasa ((y, none) :: rest) = processNasa rest) := by
  refine ⟨wbRaw_eq_filterMap, ?_, ?_, ?_⟩
  · intro d
    rfl
  · with_unfolding_all decide
  · intro y rest
    simp [processNasa]

/-!
## Claim C2: no raw exception past the fetch boundary
   (`NOAAAPI.get_climate_data`, `NewsDataAPI.get_climate_news`,
   src/api_integrations.py 21-71 and 120-213)
-/

/-- A Python exception that is not a `requests` exception (and so is
not caught by the `except requests.exceptions.RequestException`
clauses). -/
inductive PyErr where
  | keyError (k : String)
  | attributeError (attr : String)
deriving DecidableEq

/-- Outcome of one `requests.get(...)` + `raise_for_status()` +
`.json()` sequence: either some `RequestException` was raised (network
failure, timeout, non-2xx status), or a decoded payload came back. -/
inductive HttpRes (α : Type) where
  | raises (msg : String)
  | ok (payload : α)

/-- One record of the CDO `stations` payload. Each field is `none`
when the record lacks that key: `station["id"]` (line 157) and
`station["longitude"]` / `station["latitude"]` (line 180) are direct
indexings that raise `KeyError` on a missing key, while
`station.get("elevation", 0)` defaults. -/
structure Station where
  id : Option String
  longitude : Option ℚ
  latitude : Option ℚ
  elevation : Option ℚ

/-- The decoded `stations` payload: `results` is `none` when the key is
missing (`station_data.get("results")` is falsy then, like an empty
list). -/
structure StationsPayload where
  results : Option (List Station)

/-- The value returned by `get_climate_data`. The weather.gov points
payload and the GHCND data payload are passed through unchanged and
never inspected, so they are modelled as opaque tokens. -/
inductive ClimateFeature where
  | pointsPayload (p : ℕ)
  | stationFeature (slon slat : ℚ) (st : Station) (data : ℕ) (elev : ℚ)
  | noStations (lon lat : ℚ)
  | errFeature (lon lat : ℚ) (msg : String)

/-- Environment for one `get_climate_data` call: outcomes of the
weather.gov points call, the CDO stations call, and the CDO data
call. -/
structure NoaaEnv where
  points : HttpRes ℕ
  stations : HttpRes StationsPayload
  dataRes : HttpRes ℕ

/-- Embedding of `NOAAAPI.get_climate_data` (src/api_integrations.py
120-213): only `RequestException` is caught (yielding the error
Feature). `station_data["results"][0]["id"]` (line 157) on a first
record without an `id` key raises `KeyError` before the data call;
after the data call succeeds, building the returned Feature indexes
`station["longitude"]` then `station["latitude"]` (line 180), each
raising `KeyError` on a missing key; all of these escape as
`Except.error`. `station.get("elevation", 0)` cannot raise. -/
def get_climate_data (env : NoaaEnv) (lat lon : ℚ) : Except PyErr ClimateFeature :=
  if is_us_location lat lon then
    match env.points with
    | .raises m => .ok (.errFeature lon lat m)
    | .ok p => .ok (.pointsPayload p)
  else
    match env.stations with
    | .raises m => .ok (.errFeature lon lat m)
    | .ok sd =>
        match sd.results with
        | some (st :: _) =>
            match st.id with
            | none => .error (.keyError "id")
            | some _ =>
                match env.dataRes with
                | .raises m => .ok (.errFeature lon lat m)
                | .ok d =>
                    match st.longitude with
                    | none => .error (.keyError "longitude")
                    | some slon =>
                        match st.latitude with
                        | none => .error (.keyError "latitude")
                        | some slat =>
                            .ok (.stationFeature slon slat st d
                              (st.elevation.getD 0))
        | some [] => .ok (.noStations lon lat)
        | none => .ok (.noStations lon lat)

/-- A news article; the fields are never inspected by the fetch logic,
so a token stands for the record. -/
structure Article where
  token : ℕ
deriving DecidableEq

/-- The decoded newsdata.io payload: a JSON object with optional
`status`, `message`, `results`, `nextPage`, `totalResults` keys — or a
non-object JSON value, on which `data.get(...)` raises
`AttributeError`. -/
inductive NewsJson where
  | dict (status : Option String) (message : Option String)
      (results : Option (List Article)) (nextPage : Option String)
      (totalResults : Option ℕ)
  | nondict

/-- The dict returned by `get_climate_news`: the success shape or the
error shape (whose `results` value is always the empty list). -/
inductive NewsReturn where
  | success (results : List Article) (nextPage : Option String) (totalResults : ℕ)
  | error (message : String) (results : List Article)

/-- Embedding of `NewsDataAPI.get_climate_news` (src/api_integrations.py
21-71): a raised `RequestException` is converted to the error dict; a
JSON object is dispatched on its `status` field with `.get` defaults;
a non-object JSON payload raises `AttributeError` at `data.get`, which
escapes as `Except.error`. -/
def get_climate_news (env : HttpRes NewsJson) : Except PyErr NewsReturn :=
  match env with
  | .raises m => .ok (.error m [])
  | .ok .nondict => .error (.attributeError "get")
  | .ok (.dict status message results nextPage totalResults) =>
      if status = some "success" then
        .ok (.success (results.getD []) nextPage (totalResults.getD 0))
      else
        .ok (.error (message.getD "Unknown error") [])

/-- C2 counterexample: at the international coordinate (0, 0), with the
stations call succeeding but its first record lacking the `id` key,
`get_climate_data` raises a `KeyError` that is not caught by the
`RequestException` handler — a raw exception propagates to the caller,
contradicting the claim for the malformed-payload/missing-key case. -/
theorem C2_counterexample :
    get_climate_data
      ⟨.ok 0, .ok ⟨some [⟨none, some 10, some 10, none⟩]⟩, .ok 0⟩ 0 0 =
      .error (.keyError "id") := by
  with_unfolding_all rfl

/-- The stations payload's first record — the only one the source ever
indexes — carries the three directly-indexed keys `id`, `longitude`
and `latitude`. -/
def stationsWellFormed : HttpRes StationsPayload → Bool
  | .raises _ => true
  | .ok sd =>
      match sd.results with
      | some (st :: _) => st.id.isSome && st.longitude.isSome && st.latitude.isSome
      | some [] => true
      | none => true

/-- The news payload is not a non-object JSON value. -/
def newsWellFormed : HttpRes NewsJson → Bool
  | .ok .nondict => false
  | _ => true

/-- C2 amended: network failures (`RequestException`) are always caught
and converted into an error-tagged return value; and provided the
decoded payloads are well-formed — the first stations record carries
the directly-indexed `id`, `longitude` and `latitude` keys, and the
news payload is a JSON object — `get_climate_data` and
`get_climate_news` return a value for every input and let no exception
propagate. A malformed payload does escape as a raw exception: a first
record without `id` raises `KeyError` (per the counterexample), and a
record carrying only `id` still raises an uncaught
`KeyError: longitude` when the returned Feature's coordinates are
built, as the final conjunct exhibits. -/
theorem C2_amended_no_escape :
    (∀ (env : NoaaEnv) (lat lon : ℚ) (envn : HttpRes NewsJson),
      stationsWellFormed env.stations = true →
      newsWellFormed envn = true →
      (∃ v, get_climate_data env lat lon = .ok v) ∧
      (∃ w, get_climate_news envn = .ok w)) ∧
    get_climate_data
      ⟨.ok 0, .ok ⟨some [⟨some "GHCND:X", none, none, none⟩]⟩, .ok 0⟩ 0 0 =
      .error (.keyError "longitude") := by
  constructor
  · intro env lat lon envn hs hn
    constructor
    · unfold get_climate_data
      by_cases hus : is_us_location lat lon = true
      · rw [if_pos hus]
        cases env.points with
        | raises m => exact ⟨_, rfl⟩
        | ok p => exact ⟨_, rfl⟩
      · rw [if_neg hus]
        unfold stationsWellFormed at hs
        cases hst : env.stations with
        | raises m => exact ⟨_, rfl⟩
        | ok sd =>
            rw [hst] at hs
            obtain ⟨res⟩ := sd
            cases res with
            | none => exact ⟨_, rfl⟩
            | some l =>
                cases l with
                | nil => exact ⟨_, rfl⟩
                | cons st rest =>
                    obtain ⟨oid, olon, olat, oelev⟩ := st
                    cases oid with
                    | none => exact absurd hs (by simp)
                    | some i =>
                        cases olon with
                        | none => exact absurd hs (by simp)
                        | some slon =>
                            cases olat with
                            | none => exact absurd hs (by simp)
                            | some slat =>
                                cases env.dataRes with
                                | raises m => exact ⟨_, rfl⟩
                                | ok d => exact ⟨_, rfl⟩
    · cases envn with
      | raises m => exact ⟨_, rfl⟩
      | ok j =>
          cases j with
          | nondict => simp [newsWellFormed] at hn
          | dict status message results nextPage totalResults =>
              by_cases hst : status = some "success"
              · refine ⟨.success (results.getD []) nextPage (totalResults.getD 0), ?_⟩
                simp [get_climate_news, hst]
              · refine ⟨.error (message.getD "Unknown error") [], ?_⟩
                simp [get_climate_news, hst]
  · with_unfolding_all rfl

/-- C2 amended witness: the amended theorem applies at a concrete
well-formed environment — the first stations record carrying `id`,
`longitude` and `latitude` — and yields values for both fetches. -/
theorem C2_amended_no_escape_witness :
    stationsWellFormed
      (HttpRes.ok ⟨some [⟨some "GHCND:X", some 10, some 10, some 5⟩]⟩) = true ∧
    newsWellFormed
      (HttpRes.ok (.dict (some "success") none (some [⟨7⟩]) none (some 3))) = true ∧
    ((∃ v, get_climate_data
        ⟨.ok 1, .ok ⟨some [⟨some "GHCND:X", some 10, some 10, some 5⟩]⟩, .ok 2⟩
        0 0 = .ok v) ∧
      (∃ w, get_climate_news
        (.ok (.dict (some "success") none (some [⟨7⟩]) none (some 3))) = .ok w)) :=
  ⟨rfl, rfl,
    C2_amended_no_escape.1
      ⟨.ok 1, .ok ⟨some [⟨some "GHCND:X", some 10, some 10, some 5⟩]⟩, .ok 2⟩ 0 0
      (.ok (.dict (some "success") none (some [⟨7⟩]) none (some 3))) rfl rfl⟩

/-!
## Claim C3: caching of failure outcomes
   (`fetch_weather`, src/utils.py 59-105, under `@st.cache_data(ttl=1800)`)
-/

/-- Outcome of the OpenWeatherMap call inside `fetch_weather`: a raised
`RequestException`, or a decoded payload carrying its `cod` field (the
rest of the payload is passed through and modelled by a token). -/
inductive WeatherOutcome where
  | raises (msg : String)
  | payload (cod : ℤ) (tok : ℕ)
deriving DecidableEq

/-- The value `fetch_weather` returns: the payload when `cod != 404`,
Python `None` after the 404 error message, or the hard-coded backup
structure (for the requested location) when the request raised. -/
inductive WeatherVal where
  | data (cod : ℤ) (tok : ℕ)
  | noneVal
  | backup (location : String)
deriving DecidableEq

/-- The body of `fetch_weather` (src/utils.py 59-105), without the
cache decorator: a raised `RequestException` is caught and the backup
structure is returned; otherwise the payload is returned unless its
`cod` is 404. -/
def fetch_weather_once (location : String) (o : WeatherOutcome) : WeatherVal :=
  match o with
  | .raises _ => .backup location
  | .payload cod tok => if cod ≠ 404 then .data cod tok else .noneVal

/-- Result of consulting the `st.cache_data` wrapper for one call. -/
structure CacheCall (α : Type) where
  value : α
  entry : Option (ℕ × α)
  invoked : Bool
deriving DecidableEq

/-- Models the `st.cache_data(ttl=...)` decorator semantics for one
call at time `now` with the current cache entry for this argument
tuple: a stored value younger than the TTL is returned without running
the function; otherwise the function body runs and its return value —
whatever it is — is stored with the current timestamp. -/
def cacheCall (ttl now : ℕ) (entry : Option (ℕ × α)) (compute : α) : CacheCall α :=
  match entry with
  | some (t, v) =>
      if now < t + ttl then ⟨v, some (t, v), false⟩
      else ⟨compute, some (now, compute), true⟩
  | none => ⟨compute, some (now, compute), true⟩

/-- Two successive cached `fetch_weather` calls for the same location,
starting from an empty cache: outcomes `o1`, `o2` describe what the
provider would do at each call, `t1`, `t2` are the call times. Returns
each call's value and whether the provider was actually invoked. -/
def weatherTwoCalls (location : String) (o1 o2 : WeatherOutcome) (t1 t2 : ℕ) :
    (WeatherVal × Bool) × (WeatherVal × Bool) :=
  let r1 := cacheCall 1800 t1 none (fetch_weather_once location o1)
  let r2 := cacheCall 1800 t2 r1.entry (fetch_weather_once location o2)
  ((r1.value, r1.invoked), (r2.value, r2.invoked))

/-- C3 counterexample: the first `fetch_weather` call fails (network
error; the backup fallback structure is returned) and the second call
60 seconds later — with the provider now healthy — does not re-attempt
the fetch: the cached fallback value is returned and the provider is
not invoked, contradicting the claim that an error outcome is never
cached. -/
theorem C3_counterexample :
    (weatherTwoCalls "Paris" (.raises "timeout") (.payload 200 1) 0 60).2 =
      (.backup "Paris", false) := by
  decide

/-- C3 amended: every return value of `fetch_weather` — including the
backup fallback produced on a network error and the `None` produced on
a 404 — is cached under the 1800-second TTL exactly like a success:
the second call returns the first call's stored value without invoking
the provider whenever it falls within the TTL window, and re-attempts
the fetch only once the TTL has elapsed. -/
theorem C3_amended_fallback_cached :
    ∀ (location : String) (o1 o2 : WeatherOutcome) (t1 t2 : ℕ),
      (weatherTwoCalls location o1 o2 t1 t2).2 =
        if t2 < t1 + 1800 then
          ((weatherTwoCalls location o1 o2 t1 t2).1.1, false)
        else
          (fetch_weather_once location o2, true) := by
  intro location o1 o2 t1 t2
  unfold weatherTwoCalls cacheCall
  by_cases h : t2 < t1 + 1800 <;> simp [h]

/-!
## Claims C8/C9: `get_climate_events_data` (src/utils.py 439-556)

The try block fabricates four synthetic event series from
`random.uniform` draws and returns them; everything after that bare
`return` (the EM-DAT parsing block and the NOAA billion-dollar
fallback) is dead text. The global Mersenne-Twister state is modelled
by a draw stream `s : ℕ → ℚ` (the successive unit uniforms) and a
cursor `c`: `random.uniform(a, b)` consumes the next draw `u` as
`a + (b - a) * u`, and the cursor advances by the number of draws
consumed (4 series x 44 years = 176).
-/

/-- The list `years = list(range(1980, 2024))`. -/
def eventYears : List ℤ :=
  (List.range 44).map (fun i => 1980 + (i : ℤ))

/-- Model of `random.uniform(a, b)` applied to the unit draw `u`. -/
def uniformDraw (a b u : ℚ) : ℚ :=
  a + (b - a) * u

/-- One synthetic series comprehension
`[base + (i * slope) + random.uniform(lo, hi) for i in range(44)]`,
consuming draws `c, c+1, ...`. -/
def seriesOf (base slope lo hi : ℚ) (s : ℕ → ℚ) (c : ℕ) : List ℚ :=
  (List.range 44).map
    (fun (i : ℕ) => base + slope * (i : ℚ) + uniformDraw lo hi (s (c + i)))

/-- The DataFrame built inside the try block. -/
structure EventsDf where
  years : List ℤ
  floods : List ℚ
  droughts : List ℚ
  storms : List ℚ
  wildfires : List ℚ
deriving DecidableEq

/-- The try block's computation (src/utils.py 443-460): the four
comprehensions run in order, each consuming 44 draws, and the frame is
returned; the advanced cursor models the mutated global RNG state. -/
def events_try (s : ℕ → ℚ) (c : ℕ) : EventsDf × ℕ :=
  (⟨eventYears,
    seriesOf 10 0.4 (-2) 2 s c,
    seriesOf 8 0.3 (-1.5) 1.5 s (c + 44),
    seriesOf 12 0.35 (-2.5) 2.5 s (c + 88),
    seriesOf 5 0.45 (-1) 1 s (c + 132)⟩, c + 176)

/-- The try block as control flow: the bare `return df` is the
early-return (`Except.error` carries the returned value), so the
remainder of the function body is reached only in the `.ok` case. -/
def eventsTryBlock (s : ℕ → ℚ) (c : ℕ) : Except (EventsDf × ℕ) Unit :=
  Except.error (events_try s c)

/-- Result of `get_climate_events_data`: the frame, the advanced RNG
cursor, whether the EM-DAT block (src/utils.py 462-505) or the NOAA
billion-dollar block (507-551) ran, and whether the outer `except`
handler ran. -/
structure EventsOut where
  df : EventsDf
  next : ℕ
  emdatBranchRun : Bool
  noaaBranchRun : Bool
  errored : Bool

/-- The fallback text after the bare return, were it ever executed: its
first statement `df_raw = pd.read_csv(io.StringIO(response.text))`
reads the name `response`, which is not defined at that point, so the
branch immediately raises `NameError`, caught by the outer handler
(empty DataFrame, errored). The flag records that the branch ran. -/
def eventsDeadFallback (c : ℕ) : EventsOut :=
  ⟨⟨[], [], [], [], []⟩, c, true, false, true⟩

/-- Embedding of `get_climate_events_data` (src/utils.py 439-556). -/
def get_climate_events_data (s : ℕ → ℚ) (c : ℕ) : EventsOut :=
  match eventsTryBlock s c with
  | .error (df, c') => ⟨df, c', false, false, false⟩
  | .ok _ => eventsDeadFallback c

/-- C9: the statements after the bare `return` inside the try block are
unreachable — for every RNG state, the call returns the synthetic
events frame, the outer error handler does not run, and neither the
EM-DAT block nor the NOAA fallback block is ever executed. -/
theorem C9_dead_fallback_branches :
    ∀ (s : ℕ → ℚ) (c : ℕ),
      (get_climate_events_data s c).emdatBranchRun = false ∧
      (get_climate_events_data s c).noaaBranchRun = false ∧
      (get_climate_events_data s c).errored = false ∧
      (get_climate_events_data s c).df = (events_try s c).1 :=
  fun _ _ => ⟨rfl, rfl, rfl, rfl⟩

set_option maxRecDepth 8000 in
/-- C8 counterexample: with a concrete draw stream, running the
data-production step twice in succession (the second run starting from
the RNG cursor the first run left behind) yields two different frames —
the hidden RNG state does influence the result, contradicting the
idempotence claim. -/
theorem C8_counterexample :
    (events_try (fun k => if k < 176 then 0 else 1) 0).1 ≠
      (events_try (fun k => if k < 176 then 0 else 1)
        (events_try (fun k => if k < 176 then 0 else 1) 0).2).1 := by
  with_unfolding_all decide

/-- A synthetic series depends only on the 44 draws it consumes. -/
theorem seriesOf_congr (base slope lo hi : ℚ) (s s' : ℕ → ℚ) (c c' : ℕ)
    (h : ∀ i, i < 44 → s (c + i) = s' (c' + i)) :
    seriesOf base slope lo hi s c = seriesOf base slope lo hi s' c' := by
  unfold seriesOf
  apply List.map_congr_left
  intro i hi
  rw [List.mem_range] at hi
  rw [h i hi]

/-- C8 amended: the data-production step is deterministic as a function
of the raw inputs and the RNG draws it consumes — two runs that read
the same 176 unit uniforms produce identical frames — but it is not
idempotent as a call: it reads and advances the hidden global RNG
cursor, so an immediate second run consumes different draws and (per
the counterexample) generally yields a different frame. The CO2 and
temperature normalizations consume no randomness at all, being plain
functions of their payload. -/
theorem C8_amended_rng_determinism :
    ∀ (s s' : ℕ → ℚ) (c c' : ℕ),
      (∀ i, i < 176 → s (c + i) = s' (c' + i)) →
      (events_try s c).1 = (events_try s' c').1 := by
  intro s s' c c' h
  unfold events_try
  simp only
  congr 1
  · exact seriesOf_congr _ _ _ _ s s' c c' (fun i hi => h i (by omega))
  · refine seriesOf_congr _ _ _ _ s s' (c + 44) (c' + 44) (fun i hi => ?_)
    have h1 : c + 44 + i = c + (44 + i) := by omega
    have h2 : c' + 44 + i = c' + (44 + i) := by omega
    rw [h1, h2]
    exact h (44 + i) (by omega)
  · refine seriesOf_congr _ _ _ _ s s' (c + 88) (c' + 88) (fun i hi => ?_)
    have h1 : c + 88 + i = c + (88 + i) := by omega
    have h2 : c' + 88 + i = c' + (88 + i) := by omega
    rw [h1, h2]
    exact h (88 + i) (by omega)
  · refine seriesOf_congr _ _ _ _ s s' (c + 132) (c' + 132) (fun i hi => ?_)
    have h1 : c + 132 + i = c + (132 + i) := by omega
    have h2 : c' + 132 + i = c' + (132 + i) := by omega
    rw [h1, h2]
    exact h (132 + i) (by omega)

/-- C8 amended witness: two runs with different streams and different
cursors that agree on the 176 consumed draws yield the same frame. -/
theorem C8_amended_rng_determinism_witness :
    (∀ i, i < 176 →
      (fun _ : ℕ => (1 : ℚ)/2) (0 + i) =
        (fun k : ℕ => if k < 200 then (1 : ℚ)/2 else 0) (5 + i)) ∧
    (events_try (fun _ => (1 : ℚ)/2) 0).1 =
      (events_try (fun k => if k < 200 then (1 : ℚ)/2 else 0) 5).1 := by
  have hdraws : ∀ i, i < 176 →
      (fun _ : ℕ => (1 : ℚ)/2) (0 + i) =
        (fun k : ℕ => if k < 200 then (1 : ℚ)/2 else 0) (5 + i) := by
    intro i hi
    have hlt : 5 + i < 200 := by omega
    simp [hlt]
  exact ⟨hdraws, C8_amended_rng_determinism _ _ _ _ hdraws⟩
